import Mathlib

/-!
# Cygnusa Guardian — Code Execution & Deterministic Grading Engine

Shallow embedding of `backend/code_executor.py` (class `CodeSandbox`) and the
evidence value model of `backend/models.py` (`TestCaseResult`,
`CodeExecutionEvidence`), together with theorems settling the frozen claims
about the engine.

Modelling conventions:
* Python machine floats are modelled as exact rationals (`ℚ`); `round(x, n)`
  is modelled as exact round-half-to-even on `x * 10^n`.
* Dynamically typed Python values flowing through the grader (test inputs,
  expected values, parsed program output) are modelled by the tagged union
  `PyVal`.
* The behaviour of the spawned candidate process is not modelled (it runs
  arbitrary candidate code); it enters the embedding as an oracle
  `Nat → ExecOutcome` giving, per test-case index, the observable outcome of
  the `subprocess.run` call (return code / stdout / stderr / elapsed time,
  a timeout, or a host-side launch failure).
-/

/-! ## Generic string helpers (Python runtime operations used by the engine) -/

/-- A single-quote character, built numerically (code point 39). -/
def squote : String := String.mk [Char.ofNat 39]

/-- Does `hay` start with `needle`? (helper for substring search). -/
def listStartsWith : List Char → List Char → Bool
  | [], _ => true
  | _ :: _, [] => false
  | a :: as, b :: bs => a == b && listStartsWith as bs

/-- Python `needle in hay` on lists of characters. -/
def listHasSub (needle : List Char) : List Char → Bool
  | [] => needle.isEmpty
  | b :: bs => listStartsWith needle (b :: bs) || listHasSub needle bs

/-- Python substring test `needle in hay`. -/
def containsSub (hay needle : String) : Bool :=
  listHasSub needle.data hay.data

/-- Python `str.lower()` (ASCII model). -/
def strToLower (s : String) : String :=
  String.mk (s.data.map Char.toLower)

/-- Is `c` one of the whitespace characters stripped by `str.strip()`?
(ASCII model: space, tab, newline, carriage return, form feed, vertical
tab). -/
def isPyWs (c : Char) : Bool :=
  c == ' ' || c == '\t' || c == '\n' || c == '\r' || c == Char.ofNat 12 || c == Char.ofNat 11

/-- Python `str.strip()`: drop whitespace from both ends. -/
def pyStrip (s : String) : String :=
  String.mk (((s.data.dropWhile isPyWs).reverse.dropWhile isPyWs).reverse)

/-- Python slicing `s[:n]`. -/
def strTake (s : String) (n : Nat) : String := String.mk (s.data.take n)

/-! ## Python value model -/

/-- Tagged union of the dynamically typed Python values handled by the
grader: strings, ints, floats (as exact `ℚ`), bools, `None`, lists, and
string-keyed dicts (JSON objects / keyed test inputs). -/
inductive PyVal where
  | str (s : String)
  | int (n : Int)
  | float (q : ℚ)
  | bool (b : Bool)
  | none
  | list (xs : List PyVal)
  | dict (kvs : List (String × PyVal))
deriving Repr

/-- Numeric value of a Python number (`bool` is a numeric type in Python:
`True == 1`); `none` for non-numeric values. -/
def pyNum? : PyVal → Option ℚ
  | .int n => some (n : ℚ)
  | .float q => some q
  | .bool b => some (if b then 1 else 0)
  | _ => Option.none

mutual

/-- Python `==`. Numbers (int/float/bool) compare by numeric value across
types; strings, `None`, lists and dicts compare structurally (lists
elementwise with `==`). Model simplification: dict entries are compared in
declaration order, whereas Python dict equality is order-insensitive; no
claim exercises dict equality. -/
def pyEq : PyVal → PyVal → Bool
  | .str s, .str t => s == t
  | .none, .none => true
  | .list xs, .list ys => pyEqList xs ys
  | .dict xs, .dict ys => pyEqPairs xs ys
  | a, b =>
    match pyNum? a, pyNum? b with
    | some x, some y => x == y
    | _, _ => false

/-- Pointwise Python `==` on lists. -/
def pyEqList : List PyVal → List PyVal → Bool
  | [], [] => true
  | x :: xs, y :: ys => pyEq x y && pyEqList xs ys
  | _, _ => false

/-- Pointwise Python `==` on dict entries (see `pyEq` for the ordering
caveat). -/
def pyEqPairs : List (String × PyVal) → List (String × PyVal) → Bool
  | [], [] => true
  | (k, v) :: xs, (l, w) :: ys => k == l && pyEq v w && pyEqPairs xs ys
  | _, _ => false

end

/-! ### Python `str()` / `repr()` -/

/-- Decimal digits of the fractional part `r/d` (long division), stopping
when the remainder vanishes or at the fuel bound (Python floats print at
most 17 significant digits; non-terminating expansions are cut — a
best-effort model of float repr). -/
def fracDigits : Nat → Nat → Nat → List Char
  | 0, _, _ => []
  | _ + 1, 0, _ => []
  | fuel + 1, r, d =>
    let r10 := r * 10
    Char.ofNat (48 + r10 / d) :: fracDigits fuel (r10 % d) d

/-- Python `str()` of a non-negative float value given as `num/den`. -/
def floatStrNonneg (num den : Nat) : String :=
  let ip := num / den
  let r := num % den
  if r = 0 then toString ip ++ ".0"
  else toString ip ++ "." ++ String.mk (fracDigits 17 r den)

/-- Python `str()` of a float, modelled on exact rationals. -/
def floatStr (q : ℚ) : String :=
  if q < 0 then "-" ++ floatStrNonneg (-q.num).toNat q.den
  else floatStrNonneg q.num.toNat q.den

mutual

/-- Python `repr()` of a grader value. Model simplification: string reprs
always use single quotes and do not escape characters. -/
def pyRepr : PyVal → String
  | .str s => squote ++ s ++ squote
  | .int n => toString n
  | .float q => floatStr q
  | .bool b => if b then "True" else "False"
  | .none => "None"
  | .list xs => "[" ++ pyReprList xs ++ "]"
  | .dict kvs => "\x7b" ++ pyReprPairs kvs ++ "\x7d"

/-- Comma-joined reprs of list elements. -/
def pyReprList : List PyVal → String
  | [] => ""
  | [x] => pyRepr x
  | x :: y :: xs => pyRepr x ++ ", " ++ pyReprList (y :: xs)

/-- Comma-joined reprs of dict entries. -/
def pyReprPairs : List (String × PyVal) → String
  | [] => ""
  | [(k, v)] => squote ++ k ++ squote ++ ": " ++ pyRepr v
  | (k, v) :: e :: xs =>
    squote ++ k ++ squote ++ ": " ++ pyRepr v ++ ", " ++ pyReprPairs (e :: xs)

end

/-- Python `str()`: identity on strings, `repr`-like elsewhere (`str` and
`repr` agree on ints, floats, bools, `None`, lists and dicts). -/
def pyStr : PyVal → String
  | .str s => s
  | v => pyRepr v

/-! ### Python `float()` coercion -/

/-- Value of a list of decimal digit characters (most significant first). -/
def digitsVal (cs : List Char) : Nat :=
  cs.foldl (fun acc c => acc * 10 + (c.toNat - 48)) 0

/-- Are all characters decimal digits? -/
def allDigits (cs : List Char) : Bool :=
  cs.all fun c => c.isDigit

/-- Is `c` a hexadecimal digit? -/
def isHexChar (c : Char) : Bool :=
  c.isDigit || ('a' ≤ c && c ≤ 'f') || ('A' ≤ c && c ≤ 'F')

/-- Integer power of ten as a rational (negative exponents allowed). -/
def pow10 (e : Int) : ℚ :=
  if 0 ≤ e then ((10 : ℚ) ^ e.toNat) else 1 / ((10 : ℚ) ^ (-e).toNat)

/-- Parse an optional sign, returning the sign factor and the rest. -/
def parseSign : List Char → ℚ × List Char
  | '-' :: cs => (-1, cs)
  | '+' :: cs => (1, cs)
  | cs => (1, cs)

/-- Parse the decimal-literal tail accepted by Python `float()` after the
sign: `digits [. digits] [exp]`, `. digits [exp]`. The model does not accept
`inf`/`nan` spellings or digit-group underscores (Python does; no claim
depends on them). -/
def parseFloatBody (cs : List Char) : Option ℚ :=
  let intPart := cs.takeWhile fun c => c.isDigit
  let rest := cs.dropWhile fun c => c.isDigit
  let (fracPart, rest2) : List Char × List Char :=
    match rest with
    | '.' :: cs2 => (cs2.takeWhile (fun c => c.isDigit), cs2.dropWhile (fun c => c.isDigit))
    | _ => ([], rest)
  if intPart.isEmpty && fracPart.isEmpty then Option.none
  else
    let mantissa : ℚ := (digitsVal intPart : ℚ) + (digitsVal fracPart : ℚ) / (10 : ℚ) ^ fracPart.length
    match rest2 with
    | [] => some mantissa
    | e :: cs3 =>
      if e == 'e' || e == 'E' then
        let sr : ℚ × List Char := parseSign cs3
        let esign := sr.1
        let cs4 := sr.2
        let eDigits := cs4.takeWhile fun c => c.isDigit
        let cs5 := cs4.dropWhile fun c => c.isDigit
        if eDigits.isEmpty || !cs5.isEmpty then Option.none
        else some (mantissa * pow10 (esign.num * (digitsVal eDigits : Int)))
      else Option.none

/-- Python `float(s)` on a string: strip whitespace, optional sign, decimal
literal. -/
def parseFloat? (s : String) : Option ℚ :=
  let cs := (pyStrip s).data
  let (sign, cs2) := parseSign cs
  (parseFloatBody cs2).map (sign * ·)

/-- Python `float(x)` on a grader value: numbers coerce exactly (`True → 1.0`),
strings are parsed, everything else raises (`Option.none` = `ValueError` /
`TypeError`, which the engine catches). -/
def pyFloat? : PyVal → Option ℚ
  | .str s => parseFloat? s
  | .int n => some (n : ℚ)
  | .float q => some q
  | .bool b => some (if b then 1 else 0)
  | _ => Option.none

/-! ### Python `round(x, n)` -/

/-- Floor of a rational as an integer. -/
def ratFloor (q : ℚ) : Int := ⌊q⌋

/-- Round a rational to the nearest integer, ties to even (Python's rounding
mode, modelled exactly on rationals). -/
def roundHalfEven (q : ℚ) : Int :=
  let f := ratFloor q
  let r := q - (f : ℚ)
  if r < 1 / 2 then f
  else if 1 / 2 < r then f + 1
  else if f % 2 = 0 then f else f + 1

/-- Python `round(x, ndigits)` modelled on exact rationals. -/
def pyRound (x : ℚ) (ndigits : Nat) : ℚ :=
  (roundHalfEven (x * (10 : ℚ) ^ ndigits) : ℚ) / (10 : ℚ) ^ ndigits

/-! ## JSON parsing (model of `json.loads` for the harness IPC line) -/

/-- Skip JSON whitespace. -/
def skipWs : List Char → List Char
  | c :: cs => if c == ' ' || c == '\t' || c == '\n' || c == '\r' then skipWs cs else c :: cs
  | [] => []

/-- Parse a JSON string body after the opening quote; supports the standard
single-character escapes and `\uXXXX`. -/
def parseJsonStr : Nat → List Char → Option (String × List Char)
  | 0, _ => Option.none
  | _ + 1, [] => Option.none
  | fuel + 1, c :: cs =>
    if c == '"' then some ("", cs)
    else if c == '\\' then
      match cs with
      | [] => Option.none
      | e :: cs2 =>
        let esc? : Option (Char × List Char) :=
          if e == '"' then some ('"', cs2)
          else if e == '\\' then some ('\\', cs2)
          else if e == '/' then some ('/', cs2)
          else if e == 'n' then some ('\n', cs2)
          else if e == 't' then some ('\t', cs2)
          else if e == 'r' then some ('\r', cs2)
          else if e == 'b' then some (Char.ofNat 8, cs2)
          else if e == 'f' then some (Char.ofNat 12, cs2)
          else if e == 'u' then
            match cs2 with
            | h1 :: h2 :: h3 :: h4 :: cs3 =>
              if isHexChar h1 && isHexChar h2 && isHexChar h3 && isHexChar h4 then
                let hv := fun (c : Char) =>
                  if c.isDigit then c.toNat - 48
                  else if c.toNat ≥ 97 then c.toNat - 87 else c.toNat - 55
                some (Char.ofNat (((hv h1 * 16 + hv h2) * 16 + hv h3) * 16 + hv h4), cs3)
              else Option.none
            | _ => Option.none
          else Option.none
        match esc? with
        | some (ch, cs3) =>
          (parseJsonStr fuel cs3).map fun (s, r) => (String.mk (ch :: s.data), r)
        | Option.none => Option.none
    else (parseJsonStr fuel cs).map fun (s, r) => (String.mk (c :: s.data), r)

/-- Parse a JSON number: `-? digits (. digits)? ([eE][+-]? digits)?`; an
integral literal (no fraction, no exponent) yields a Python `int`, anything
else a float — as `json.loads` does. -/
def parseJsonNum (cs : List Char) : Option (PyVal × List Char) :=
  let (neg, cs1) : Bool × List Char :=
    match cs with
    | '-' :: tl => (true, tl)
    | _ => (false, cs)
  let intPart := cs1.takeWhile fun c => c.isDigit
  let rest := cs1.dropWhile fun c => c.isDigit
  if intPart.isEmpty then Option.none
  else
    let fracRes : Option (List Char × List Char) :=
      match rest with
      | '.' :: cs2 =>
        let f := cs2.takeWhile fun c => c.isDigit
        if f.isEmpty then Option.none
        else some (f, cs2.dropWhile (fun c => c.isDigit))
      | _ => some ([], rest)
    match fracRes with
    | Option.none => Option.none
    | some (fracPart, rest2) =>
      let expRes : Option (Option Int × List Char) :=
        match rest2 with
        | e :: cs3 =>
          if e == 'e' || e == 'E' then
            let (es, cs4) := parseSign cs3
            let eDigits := cs4.takeWhile fun c => c.isDigit
            if eDigits.isEmpty then Option.none
            else some (some (es.num * (digitsVal eDigits : Int)), cs4.dropWhile (fun c => c.isDigit))
          else some (Option.none, rest2)
        | [] => some (Option.none, [])
      match expRes with
      | Option.none => Option.none
      | some (exp?, rest3) =>
        let sign : ℚ := if neg then -1 else 1
        if fracPart.isEmpty && exp?.isNone then
          some (.int (sign.num * (digitsVal intPart : Int)), rest3)
        else
          let mantissa : ℚ :=
            (digitsVal intPart : ℚ) + (digitsVal fracPart : ℚ) / (10 : ℚ) ^ fracPart.length
          some (.float (sign * mantissa * pow10 (exp?.getD 0)), rest3)

mutual

/-- Fueled recursive-descent parser for a JSON value (model of `json.loads`).
Returns the value and the unconsumed input. -/
def parseJsonVal : Nat → List Char → Option (PyVal × List Char)
  | 0, _ => Option.none
  | fuel + 1, cs =>
    match skipWs cs with
    | 'n' :: 'u' :: 'l' :: 'l' :: rest => some (.none, rest)
    | 't' :: 'r' :: 'u' :: 'e' :: rest => some (.bool true, rest)
    | 'f' :: 'a' :: 'l' :: 's' :: 'e' :: rest => some (.bool false, rest)
    | '"' :: rest => (parseJsonStr (rest.length + 1) rest).map fun (s, r) => (.str s, r)
    | '[' :: rest =>
      (match skipWs rest with
       | ']' :: r2 => some (.list [], r2)
       | r1 => (parseJsonItems fuel r1).map fun (xs, r) => (.list xs, r))
    | '\x7b' :: rest =>
      (match skipWs rest with
       | '\x7d' :: r2 => some (.dict [], r2)
       | r1 => (parseJsonMembers fuel r1).map fun (kvs, r) => (.dict kvs, r))
    | rest => parseJsonNum rest

/-- Parse one-or-more comma-separated JSON array items up to `]`. -/
def parseJsonItems : Nat → List Char → Option (List PyVal × List Char)
  | 0, _ => Option.none
  | fuel + 1, cs =>
    match parseJsonVal fuel cs with
    | Option.none => Option.none
    | some (v, rest) =>
      match skipWs rest with
      | ',' :: r2 => (parseJsonItems fuel r2).map fun (xs, r) => (v :: xs, r)
      | ']' :: r2 => some ([v], r2)
      | _ => Option.none

/-- Parse one-or-more comma-separated JSON object members up to the closing
brace. -/
def parseJsonMembers : Nat → List Char → Option (List (String × PyVal) × List Char)
  | 0, _ => Option.none
  | fuel + 1, cs =>
    match skipWs cs with
    | '"' :: r1 =>
      match parseJsonStr (r1.length + 1) r1 with
      | Option.none => Option.none
      | some (k, r2) =>
        match skipWs r2 with
        | ':' :: r3 =>
          (match parseJsonVal fuel r3 with
           | Option.none => Option.none
           | some (v, r4) =>
             match skipWs r4 with
             | ',' :: r5 => (parseJsonMembers fuel r5).map fun (kvs, r) => ((k, v) :: kvs, r)
             | '\x7d' :: r5 => some ([(k, v)], r5)
             | _ => Option.none)
        | _ => Option.none
    | _ => Option.none

end

/-- Model of `json.loads(s)`: parse one JSON value, requiring only trailing
whitespace afterwards; `Option.none` models `json.JSONDecodeError`. -/
def jsonLoads? (s : String) : Option PyVal :=
  match parseJsonVal (s.length + 1) s.data with
  | some (v, rest) => if (skipWs rest).isEmpty then some v else Option.none
  | Option.none => Option.none

/-- Python `dict.get(key)` (returns `None` when absent). -/
def dictGet (kvs : List (String × PyVal)) (k : String) : PyVal :=
  match kvs.find? (fun kv => kv.1 == k) with
  | some kv => kv.2
  | Option.none => .none

/-! ## Comparator (`CodeSandbox._compare_outputs`) -/

/-- `CodeSandbox._compare_outputs(actual, expected)`: pass determination,
tried in order — direct Python equality, trimmed-stringified equality,
float-coercion equality, then for `bool` expected a strict-equality branch
and for `list` expected a list-equality branch. Translated line by line from
`code_executor.py` lines 353–381. -/
def compareOutputs (actual expected : PyVal) : Bool :=
  if pyEq actual expected then true
  else if pyStrip (pyStr actual) == pyStrip (pyStr expected) then true
  else
    let numericHit : Bool :=
      match pyFloat? actual, pyFloat? expected with
      | some x, some y => x == y
      | _, _ => false
    if numericHit then true
    else
      match expected with
      | .bool _ => pyEq actual expected
      | .list _ =>
        match actual with
        | .list _ => pyEq actual expected
        | _ => false
      | _ => false

/-! ## Levenshtein distance & partial-credit scorer
(`CodeSandbox._calculate_similarity`) -/

/-- One inner loop of the row-based Levenshtein computation in
`_calculate_similarity`: given the previous row (as `p0 :: prest`) and the
last entry `cur` of the current row, produce the remaining entries of the
current row. -/
def levRow (c1 : Char) : List Char → List Nat → Nat → List Nat
  | c2 :: s2, p0 :: p1 :: ps, cur =>
    let v := min (p1 + 1) (min (cur + 1) (p0 + (if c1 == c2 then 0 else 1)))
    v :: levRow c1 s2 (p1 :: ps) v
  | _, _, _ => []

/-- The `levenshtein_distance` helper for `len(s1) ≥ len(s2)`: fold the
row recurrence over `s1`, starting from `range(len(s2)+1)`, and read off the
last entry of the final row. -/
def levCore (s1 s2 : List Char) : Nat :=
  if s2.length = 0 then s1.length
  else
    let final := s1.foldl
      (fun (st : Nat × List Nat) c1 =>
        let i1 := st.1 + 1
        (i1, i1 :: levRow c1 s2 st.2 i1))
      (0, List.range (s2.length + 1))
    final.2.getLastD 0

/-- `levenshtein_distance(s1, s2)` from `_calculate_similarity` (swaps its
arguments so the first is the longer). -/
def levDistance (s1 s2 : List Char) : Nat :=
  if s1.length < s2.length then levCore s2 s1 else levCore s1 s2

/-- The numeric near-miss floor applied by `_calculate_similarity` after the
edit-distance score: if both trimmed strings parse as floats and the expected
number is non-zero, similarity is floored at 95 / 75 / 50 for a relative
difference under 1% / 5% / 10%. -/
def nearMissFloor (sim : ℚ) (sa se : String) : ℚ :=
  match parseFloat? sa, parseFloat? se with
  | some a, some e =>
    if e ≠ 0 then
      let pd := |a - e| / |e|
      if pd < 1 / 100 then max sim 95
      else if pd < 5 / 100 then max sim 75
      else if pd < 1 / 10 then max sim 50
      else sim
    else sim
  | _, _ => sim

/-- `CodeSandbox._calculate_similarity(actual, expected)`: similarity score
in [0, 100] — 100 on exact trimmed match, 0 when either side is empty,
otherwise normalized Levenshtein similarity with the numeric near-miss
floor, rounded to one decimal. Translated from `code_executor.py`
lines 383–437. -/
def calculateSimilarity (actual expected : PyVal) : ℚ :=
  let sa := pyStrip (pyStr actual)
  let se := pyStrip (pyStr expected)
  if sa == se then 100
  else if sa.isEmpty || se.isEmpty then 0
  else
    let d := levDistance sa.data se.data
    let maxLen := max sa.length se.length
    let sim : ℚ := ((maxLen : ℚ) - (d : ℚ)) / (maxLen : ℚ) * 100
    pyRound (nearMissFloor sim sa se) 1

/-- The similarity value asserted by the claim for non-empty, unequal
trimmed operands, in the claim's own words: the normalized edit distance
`(max_len − levenshtein) / max_len * 100`, raised to the applicable numeric
near-miss floor (no rounding is mentioned by the claim). -/
def claimSimilarityRaw (actual expected : PyVal) : ℚ :=
  let sa := pyStrip (pyStr actual)
  let se := pyStrip (pyStr expected)
  let d := levDistance sa.data se.data
  let maxLen := max sa.length se.length
  nearMissFloor (((maxLen : ℚ) - (d : ℚ)) / (maxLen : ℚ) * 100) sa se

/-! ## Security screener (`CodeSandbox._check_security`) -/

/-- `CodeSandbox.BANNED_IMPORTS`, in source order. -/
def BANNED_IMPORTS : List String :=
  ["os", "subprocess", "sys", "socket", "requests",
   "urllib", "http", "ftplib", "smtplib", "telnetlib",
   "pickle", "marshal", "shelve", "dbm", "shutil", "tempfile",
   "ctypes", "multiprocessing", "threading",
   "__builtins__", "eval", "exec", "compile",
   "importlib", "__import__"]

/-- The four import-statement shapes checked per banned module:
`import X`, `from X`, `__import__('X'`, `__import__("X"`. -/
def importShapes (banned : String) : List String :=
  ["import " ++ banned,
   "from " ++ banned,
   "__import__(" ++ squote ++ banned ++ squote,
   "__import__(" ++ "\"" ++ banned ++ "\""]

/-- The dangerous call tokens checked after the banned-module loop. -/
def DANGEROUS_CALLS : List String :=
  ["eval(", "exec(", "compile(", "open(", "__import__"]

/-- Python `str.rstrip('(')`: drop trailing open-paren characters. -/
def rstripParen (s : String) : String :=
  String.mk (s.data.reverse.dropWhile (fun c => c == '(')).reverse

/-- The `for banned in self.BANNED_IMPORTS` loop of `_check_security`:
return the first banned module one of whose import shapes occurs in the
lowered code. -/
def findBanned (codeLower : String) : List String → Option String
  | [] => Option.none
  | banned :: rest =>
    if (importShapes banned).any (fun pat => containsSub codeLower pat)
    then some ("Restricted module detected: " ++ banned)
    else findBanned codeLower rest

/-- The `for call in dangerous_calls` loop of `_check_security`. -/
def findDangerous (codeLower : String) : List String → Option String
  | [] => Option.none
  | call :: rest =>
    if containsSub codeLower call
    then some ("Restricted function detected: " ++ rstripParen call)
    else findDangerous codeLower rest

/-- `CodeSandbox._check_security(code)`: case-insensitive scan of the source
for the deny-list import shapes, then for dangerous call tokens; returns the
first violation message, or `none` when the code is clean. Translated from
`code_executor.py` lines 169–194. -/
def checkSecurity (code : String) : Option String :=
  let codeLower := strToLower code
  match findBanned codeLower BANNED_IMPORTS with
  | some msg => some msg
  | Option.none => findDangerous codeLower DANGEROUS_CALLS

/-! ## Evidence value model (`backend/models.py`) -/

/-- `models.TestCaseResult` (models.py lines 60–67): the pydantic record has
exactly the six fields `input`, `expected`, `actual`, `passed`, `time_ms`,
`error` — it declares no `similarity_score` and no `partCredit`-style field
(see `mkTestCaseResult`). -/
structure TestCaseResult where
  input : String
  expected : String
  actual : String
  passed : Bool
  time_ms : ℚ
  error : Option String
deriving Repr, DecidableEq

/-- The keyword arguments that `code_executor.py` passes to the
`TestCaseResult(...)` constructor. The normal path of
`_run_single_test_python` additionally passes `similarity_score` and
`partCredit` (source keyword `partial_credit`); the sentinel paths
(`TIMEOUT`, `EXECUTION_ERROR`, `BLOCKED`, `ENV_ERROR`, `UNSUPPORTED`) do
not. -/
structure TestCaseResultArgs where
  input : String
  expected : String
  actual : String
  passed : Bool
  time_ms : ℚ
  error : Option String
  similarity_score : Option ℚ
  partCredit : Option Bool
deriving Repr, DecidableEq

/-- Constructing a `models.TestCaseResult` from the keyword arguments used
by the executor. pydantic's default model configuration ignores unknown
keyword arguments (both pydantic v1 `Extra.ignore` and v2 `extra="ignore"`),
so the `similarity_score` / `partial_credit` keywords are silently dropped:
the stored record keeps only the six declared fields. -/
def mkTestCaseResult (a : TestCaseResultArgs) : TestCaseResult :=
  ⟨a.input, a.expected, a.actual, a.passed, a.time_ms, a.error⟩

/-- Python exceptions surfaced by the model. -/
inductive PyErr where
  | attributeError (field : String)
deriving Repr, DecidableEq

/-- Attribute access `r.partial_credit` on a stored `models.TestCaseResult`.
The model declares no such field and pydantic ignored the constructor
keyword, so the attribute does not exist on any instance: access raises
`AttributeError` (the repository's own `test_main.py`
`test_test_case_result_model` expects these attributes to exist, and fails
against `models.py` as written). -/
def TestCaseResult.partCreditAttr : TestCaseResult → Except PyErr Bool :=
  fun _ => .error (.attributeError "partial_credit")

/-- Attribute access `r.similarity_score` on a stored `models.TestCaseResult`
(same situation as `TestCaseResult.partCreditAttr`). -/
def TestCaseResult.similarityAttr : TestCaseResult → Except PyErr ℚ :=
  fun _ => .error (.attributeError "similarity_score")

/-- `models.CodeExecutionEvidence` (the fields computed by the engine;
the caller-stamped timing metadata fields are omitted — they default to
`None` and are never touched by the engine). -/
structure CodeExecutionEvidence where
  question_id : String
  question_title : String
  language : String
  submitted_code : String
  test_cases : List TestCaseResult
  pass_rate : ℚ
  avg_time_ms : ℚ
  total_tests : Nat
deriving Repr, DecidableEq

/-! ## Process executor model -/

/-- Sandbox limits (`CodeSandbox` class constants). -/
def TIMEOUT_SECONDS : Nat := 10

/-- Maximum stdout length kept on a parse failure. -/
def MAX_OUTPUT_LENGTH : Nat := 10000

/-- One test case, as supplied by the caller (`{"input": ..., "expected":
...}` dictionaries in the question bank). -/
structure TCase where
  input : PyVal
  expected : PyVal

/-- Observable outcome of the `subprocess.run(['python', temp_path], ...)`
call for one test case — the candidate process is untrusted and arbitrary,
so it enters the embedding as data:
* `completed returncode stdout stderr elapsed_ms` — the process exited;
* `timeout` — `subprocess.TimeoutExpired` was raised;
* `hostError msg` — a host-side exception before/around the launch
  (e.g. temp-file creation failure), caught by the generic handler. -/
inductive ExecOutcome where
  | completed (returncode : Int) (stdout : String) (stderr : String) (elapsed_ms : ℚ)
  | timeout
  | hostError (msg : String)

/-- Result of the output-parsing phase inside `_run_single_test_python`
(`code_executor.py` lines 261–271): either an `(actual_output, error)` pair,
or a Python exception that escapes to the surrounding generic handler
(e.g. `output_data.get` on a non-dict JSON value raises `AttributeError`). -/
def parseStdout (returncode : Int) (stdout stderr : String) :
    Except String (PyVal × Option String) :=
  if returncode = 0 then
    match jsonLoads? (pyStrip stdout) with
    | some (.dict kvs) => .ok (dictGet kvs "result", Option.none)
    | some _ => .error "AttributeError: object has no attribute get"
    | Option.none =>
      .ok (.str (strTake (pyStrip stdout) MAX_OUTPUT_LENGTH), some "Output parsing error")
  else
    .ok (.str "ERROR",
      some (if stderr ≠ "" then strTake (pyStrip stderr) 500 else "Unknown error"))

/-- `CodeSandbox._run_single_test_python(code, test_case)` under a given
process outcome: the keyword arguments passed to the `TestCaseResult(...)`
constructor. Translated from `code_executor.py` lines 230–316 (the temp-file
cleanup in the `finally` block has no observable effect on the result:
failures there are swallowed). -/
def runSingleTest (tc : TCase) (outcome : ExecOutcome) : TestCaseResultArgs :=
  match outcome with
  | .timeout =>
    ⟨pyStr tc.input, pyStr tc.expected, "TIMEOUT", false,
     ((TIMEOUT_SECONDS : ℚ) * 1000),
     some ("Execution exceeded " ++ toString TIMEOUT_SECONDS ++ "s time limit"),
     Option.none, Option.none⟩
  | .hostError msg =>
    ⟨pyStr tc.input, pyStr tc.expected, "EXECUTION_ERROR", false, 0,
     some (strTake msg 200), Option.none, Option.none⟩
  | .completed returncode stdout stderr elapsed =>
    match parseStdout returncode stdout stderr with
    | .error msg =>
      ⟨pyStr tc.input, pyStr tc.expected, "EXECUTION_ERROR", false, 0,
       some (strTake msg 200), Option.none, Option.none⟩
    | .ok (actualOutput, err) =>
      let passed := compareOutputs actualOutput tc.expected
      let similarity := if passed then 100 else calculateSimilarity actualOutput tc.expected
      let credit := !passed && similarity ≥ 50
      ⟨pyStr tc.input, pyStr tc.expected, pyStr actualOutput, passed,
       pyRound elapsed 2, err, some similarity, some credit⟩

/-- The `test_results` list accumulated by the loop in `execute_python`:
one stored `models.TestCaseResult` per test case, each depending only on its
own test case and its own process outcome (tests run sequentially; outcome
`i` belongs to the `i`-th spawned process). -/
def runTests : List TCase → (Nat → ExecOutcome) → List TestCaseResult
  | [], _ => []
  | tc :: rest, oracle =>
    mkTestCaseResult (runSingleTest tc (oracle 0)) :: runTests rest (fun n => oracle (n + 1))

/-! ## Aggregation and evidence assembly (`execute_python` lines 85–107) -/

/-- The `total_score` loop of `execute_python`: full pass adds 1.0, otherwise
the code reads `r.partial_credit` (and, when truthy, `r.similarity_score`)
from the stored record — attribute reads that raise `AttributeError` because
`models.TestCaseResult` declares neither field. -/
def totalScore (results : List TestCaseResult) : Except PyErr ℚ :=
  results.foldlM
    (fun acc r =>
      if r.passed then pure (acc + 1)
      else do
        let credit ← r.partCreditAttr
        if credit then do
          let s ← r.similarityAttr
          pure (acc + s / 100)
        else pure acc)
    (0 : ℚ)

/-- `CodeSandbox._create_security_failure` (lines 196–227). -/
def createSecurityFailure (code language qid qtitle : String) (tcs : List TCase)
    (err : String) : CodeExecutionEvidence :=
  let results := tcs.map fun tc =>
    (⟨pyStr tc.input, pyStr tc.expected, "BLOCKED", false, 0, some err⟩ : TestCaseResult)
  ⟨qid, qtitle, language, code, results, 0, 0, tcs.length⟩

/-- `CodeSandbox._create_compiler_missing_failure` (lines 129–147). -/
def createCompilerMissingFailure (code language qid qtitle : String) (tcs : List TCase)
    (compiler : String) : CodeExecutionEvidence :=
  let err := "Environment Error: " ++ compiler ++ " compiler not found in sandbox."
  let results := tcs.map fun tc =>
    (⟨pyStr tc.input, pyStr tc.expected, "ENV_ERROR", false, 0, some err⟩ : TestCaseResult)
  ⟨qid, qtitle, language, code, results, 0, 0, tcs.length⟩

/-- `CodeSandbox._create_unsupported_language_failure` (lines 149–167). -/
def createUnsupportedFailure (code language qid qtitle : String) (tcs : List TCase) :
    CodeExecutionEvidence :=
  let err := "Error: Language " ++ squote ++ language ++ squote ++ " is not supported by the sandbox."
  let results := tcs.map fun tc =>
    (⟨pyStr tc.input, pyStr tc.expected, "UNSUPPORTED", false, 0, some err⟩ : TestCaseResult)
  ⟨qid, qtitle, language, code, results, 0, 0, tcs.length⟩

/-- `CodeSandbox.execute_python(code, test_cases, question_id,
question_title)` (lines 61–107): security screen, per-test execution, then
aggregation. A Python exception escaping the aggregation loop is modelled as
`Except.error`. -/
def executePython (code : String) (tcs : List TCase) (qid qtitle : String)
    (oracle : Nat → ExecOutcome) : Except PyErr CodeExecutionEvidence :=
  match checkSecurity code with
  | some err => .ok (createSecurityFailure code "python" qid qtitle tcs err)
  | Option.none => do
    let results := runTests tcs oracle
    let score ← totalScore results
    let passRate : ℚ := if results.isEmpty then 0 else score / (results.length : ℚ) * 100
    let avgTime : ℚ :=
      if results.isEmpty then 0
      else (results.map (·.time_ms)).sum / (results.length : ℚ)
    pure ⟨qid, qtitle, "python", code, results,
          pyRound passRate 2, pyRound avgTime 2, results.length⟩

/-- `CodeSandbox.execute(code, language, test_cases, question_id,
question_title)` (lines 40–59): lower-case the language and dispatch. -/
def execute (code language : String) (tcs : List TCase) (qid qtitle : String)
    (oracle : Nat → ExecOutcome) : Except PyErr CodeExecutionEvidence :=
  let lang := strToLower language
  if lang == "python" then executePython code tcs qid qtitle oracle
  else if lang == "java" then
    .ok (createCompilerMissingFailure code "java" qid qtitle tcs "javac")
  else if lang == "cpp" then
    .ok (createCompilerMissingFailure code "cpp" qid qtitle tcs "g++")
  else
    .ok (createUnsupportedFailure code lang qid qtitle tcs)

/-! ## Helper lemmas -/

/-- `runTests` yields one stored record per test case. -/
theorem runTests_length (tcs : List TCase) (oracle : Nat → ExecOutcome) :
    (runTests tcs oracle).length = tcs.length := by
  induction tcs generalizing oracle with
  | nil => rfl
  | cons tc rest ih => simp [runTests, ih]

/-- The `i`-th stored record depends only on the `i`-th test case and the
`i`-th process outcome. -/
theorem runTests_getElem? (tcs : List TCase) (oracle : Nat → ExecOutcome) (i : Nat) :
    (runTests tcs oracle)[i]? =
      (tcs[i]?).map fun tc => mkTestCaseResult (runSingleTest tc (oracle i)) := by
  induction tcs generalizing oracle i with
  | nil => simp [runTests]
  | cons tc rest ih =>
    cases i with
    | zero => simp [runTests]
    | succ j => simp [runTests, ih]

/-! ## Claims -/

/-- C1: the claim asserts that every call to `execute` returns an evidence
record with one `TestCaseResult` per input test case, matching
`total_tests`, and `0 ≤ pass_rate ≤ 100`, on every path. The code violates
this on the Python path: `models.TestCaseResult` declares no
`partial_credit` field, so the aggregation loop's read `r.partial_credit`
raises `AttributeError` for any non-passed result and no evidence record is
returned at all. Concretely, a submission whose single test times out makes
`execute` raise instead of returning evidence. -/
theorem c1_no_evidence_on_failing_test :
    execute "def solution(n):\n    while True:\n        pass" "python"
      [⟨.int 0, .int 0⟩] "q1" "Loop" (fun _ => .timeout)
      = .error (.attributeError "partial_credit") := by rfl

/-- C2: the claim asserts that no exception ever escapes the engine to the
caller. The code violates this: a candidate-code runtime error produces a
stored record with `passed = false`, after which the aggregation loop's read
of the undeclared `partial_credit` attribute raises `AttributeError`, which
escapes `execute` to the caller. -/
theorem c2_exception_escapes_to_caller :
    execute "def solution(n):\n    return 1/0" "python" [⟨.int 0, .int 0⟩] "q2" "Div"
      (fun _ => .completed 1 "" "ZeroDivisionError: division by zero" (25/2))
      = .error (.attributeError "partial_credit") := by rfl

/-- C4: the claim asserts the aggregate `pass_rate` / `avg_time_ms` formulas
for every non-empty result list of the Python pipeline. The aggregation loop
implements exactly the claimed formula, but it reads `r.partial_credit` (and
`r.similarity_score`) from stored `models.TestCaseResult` records that carry
neither field, so for any result list containing a non-passed test the
engine raises `AttributeError` and no aggregate is computed at all: here a
single failing test (output 1 against expected 2). -/
theorem c4_no_aggregate_for_failing_results :
    execute "def solution(n):\n    return n" "python" [⟨.int 1, .int 2⟩] "q4" "Id"
      (fun _ => .completed 0 "\x7b\"result\": 1\x7d" "" (123/10))
      = .error (.attributeError "partial_credit") := by rfl

/-- C8: the claim asserts that `similarity_score` and `partial_credit` are
part of the per-test record exposed to the caller. The code violates this:
`models.TestCaseResult` (lines 60–67) declares neither field, pydantic
silently drops the constructor keywords (so two constructions differing only
in those keywords yield identical stored records), and reading either
attribute raises `AttributeError` — the construction below is exactly the
one the repository's own `test_main.py::test_test_case_result_model`
performs before asserting `result.similarity_score == 100.0`. -/
theorem c8_similarity_fields_not_in_record :
    mkTestCaseResult ⟨"[1, 2, 3]", "6", "6", true, 3/2, Option.none, some 100, some false⟩
      = mkTestCaseResult ⟨"[1, 2, 3]", "6", "6", true, 3/2, Option.none, Option.none, Option.none⟩ ∧
    (mkTestCaseResult ⟨"[1, 2, 3]", "6", "6", true, 3/2, Option.none, some 100, some false⟩).similarityAttr
      = .error (.attributeError "similarity_score") ∧
    (mkTestCaseResult ⟨"[1, 2, 3]", "6", "6", true, 3/2, Option.none, some 100, some false⟩).partCreditAttr
      = .error (.attributeError "partial_credit") :=
  ⟨rfl, rfl, rfl⟩

/-- C3: the claim asserts that for every Python submission containing
`import subprocess` (case-insensitively), every test case is BLOCKED with an
error message mentioning `subprocess`. As stated this is false: the screener
returns the message for the FIRST matched deny-list module, and `os`
precedes `subprocess` in `BANNED_IMPORTS` — code containing both
`import os` and `import subprocess` yields the error
`Restricted module detected: os`, which does not mention `subprocess`
(the `BLOCKED`/`passed=false`/`pass_rate=0` parts do hold there). -/
theorem c3_counterexample :
    containsSub (strToLower "import os\nimport subprocess") "import subprocess" = true ∧
    execute "import os\nimport subprocess" "python" [⟨.int 1, .int 1⟩] "q3" "Sec"
      (fun _ => .timeout)
      = .ok (createSecurityFailure "import os\nimport subprocess" "python" "q3" "Sec"
          [⟨.int 1, .int 1⟩] "Restricted module detected: os") ∧
    (createSecurityFailure "import os\nimport subprocess" "python" "q3" "Sec"
          [⟨.int 1, .int 1⟩] "Restricted module detected: os").test_cases.map (·.error)
      = [some "Restricted module detected: os"] ∧
    containsSub "Restricted module detected: os" "subprocess" = false :=
  ⟨rfl, rfl, rfl, rfl⟩

/-- C3 (amended): for every Python submission containing
`import subprocess` (case-insensitively) in which no import shape of the
earlier-listed module `os` occurs, grading short-circuits before any test
runs: each test case resolves to a `TestCaseResult` with
`actual = "BLOCKED"`, `passed = false`, and an error message mentioning
`subprocess`; the evidence has `pass_rate = 0`; and no process is spawned
(the result is independent of the process-outcome oracle). -/
theorem c3_security_short_circuit (code : String) (tcs : List TCase) (qid qtitle : String)
    (oracle : Nat → ExecOutcome)
    (hsub : containsSub (strToLower code) "import subprocess" = true)
    (hos : ∀ p ∈ importShapes "os", containsSub (strToLower code) p = false) :
    ∃ ev, execute code "python" tcs qid qtitle oracle = .ok ev ∧
      ev.pass_rate = 0 ∧
      ev.test_cases.length = tcs.length ∧
      ev.total_tests = tcs.length ∧
      (∀ r ∈ ev.test_cases, r.actual = "BLOCKED" ∧ r.passed = false ∧
        r.error = some "Restricted module detected: subprocess") ∧
      containsSub "Restricted module detected: subprocess" "subprocess" = true ∧
      (∀ oracle2, execute code "python" tcs qid qtitle oracle2 = .ok ev) := by
  have hos' : (importShapes "os").any (fun pat => containsSub (strToLower code) pat) = false := by
    rw [List.any_eq_false]
    intro p hp
    simp [hos p hp]
  have hsub' : (importShapes "subprocess").any (fun pat => containsSub (strToLower code) pat) = true := by
    rw [List.any_eq_true]
    refine ⟨"import " ++ "subprocess", ?_, ?_⟩
    · simp [importShapes]
    · show containsSub (strToLower code) ("import " ++ "subprocess") = true
      exact hsub
  have hsec : checkSecurity code = some "Restricted module detected: subprocess" := by
    unfold checkSecurity BANNED_IMPORTS
    simp [findBanned, hos', hsub']
  refine ⟨createSecurityFailure code "python" qid qtitle tcs
    "Restricted module detected: subprocess", ?_, rfl, ?_, rfl, ?_, rfl, ?_⟩
  · unfold execute executePython
    rw [show strToLower "python" = "python" from rfl]
    simp [hsec]
  · simp [createSecurityFailure]
  · intro r hr
    simp only [createSecurityFailure, List.mem_map] at hr
    obtain ⟨tc, _, rfl⟩ := hr
    exact ⟨rfl, rfl, rfl⟩
  · intro oracle2
    unfold execute executePython
    rw [show strToLower "python" = "python" from rfl]
    simp [hsec]

/-- C3 witness: the amended theorem applied to the concrete submission
`import subprocess` with one test case. -/
theorem c3_security_short_circuit_witness :
    containsSub (strToLower "import subprocess") "import subprocess" = true ∧
    (∀ p ∈ importShapes "os", containsSub (strToLower "import subprocess") p = false) ∧
    ∃ ev, execute "import subprocess" "python" [⟨.int 7, .int 7⟩] "qw" "W"
        (fun _ => .timeout) = .ok ev ∧
      ev.pass_rate = 0 ∧
      ev.test_cases.length = [(⟨.int 7, .int 7⟩ : TCase)].length ∧
      ev.total_tests = [(⟨.int 7, .int 7⟩ : TCase)].length ∧
      (∀ r ∈ ev.test_cases, r.actual = "BLOCKED" ∧ r.passed = false ∧
        r.error = some "Restricted module detected: subprocess") ∧
      containsSub "Restricted module detected: subprocess" "subprocess" = true ∧
      (∀ oracle2, execute "import subprocess" "python" [⟨.int 7, .int 7⟩] "qw" "W" oracle2
        = .ok ev) :=
  ⟨rfl, by decide,
   c3_security_short_circuit "import subprocess" [⟨.int 7, .int 7⟩] "qw" "W"
     (fun _ => .timeout) rfl (by decide)⟩

/-- Evaluation helper: Python `float("104")`. -/
theorem parseFloat_104 : parseFloat? "104" = some 104 := by
  rw [show parseFloat? "104" = some ((1 : ℚ) * ((digitsVal ['1','0','4'] : ℚ)
    + (digitsVal ([] : List Char) : ℚ) / (10:ℚ) ^ (0 : Nat))) from rfl,
    show digitsVal ['1','0','4'] = 104 from rfl,
    show digitsVal ([] : List Char) = 0 from rfl]
  norm_num

/-- Evaluation helper: Python `float("100")`. -/
theorem parseFloat_100 : parseFloat? "100" = some 100 := by
  rw [show parseFloat? "100" = some ((1 : ℚ) * ((digitsVal ['1','0','0'] : ℚ)
    + (digitsVal ([] : List Char) : ℚ) / (10:ℚ) ^ (0 : Nat))) from rfl,
    show digitsVal ['1','0','0'] = 100 from rfl,
    show digitsVal ([] : List Char) = 0 from rfl]
  norm_num

/-- Evaluation helper: the comparator rejects `"104"` against `"100"`. -/
theorem compare_104_100 : compareOutputs (.str "104") (.str "100") = false := by
  unfold compareOutputs
  simp only [show pyEq (.str "104") (.str "100") = false from rfl,
    show (pyStrip (pyStr (.str "104")) == pyStrip (pyStr (.str "100"))) = false from rfl,
    pyFloat?, parseFloat_104, parseFloat_100, beq_iff_eq]
  norm_num

/-- Evaluation helper: the scorer awards 75 to `"104"` against `"100"`
(edit-distance score 200/3 ≈ 66.7, floored at 75 by the <5% near-miss
rule). -/
theorem similarity_104_100 : calculateSimilarity (.str "104") (.str "100") = 75 := by
  unfold calculateSimilarity
  rw [show pyStrip (pyStr (.str "104")) = "104" from rfl,
      show pyStrip (pyStr (.str "100")) = "100" from rfl]
  simp only [show ("104" == "100") = false from rfl,
    show "104".isEmpty = false from rfl, show "100".isEmpty = false from rfl,
    Bool.false_eq_true, if_false, Bool.or_self]
  norm_num [nearMissFloor, parseFloat_104, parseFloat_100,
    show levDistance "104".data "100".data = 1 from rfl,
    show String.length "104" = 3 from rfl, show String.length "100" = 3 from rfl,
    pyRound, roundHalfEven, ratFloor]

/-- C5: the claim asserts the similarity score EQUALS the normalized
edit-distance score raised to the numeric near-miss floor. As stated this is
false: `_calculate_similarity` returns `round(similarity, 1)` — the value is
rounded to ONE decimal place, which the claim omits. For `"abc"` vs `"abd"`
(no numeric floor applies) the claimed value is 200/3 = 66.666… while the
code returns 66.7. -/
theorem c5_counterexample :
    pyStrip (pyStr (.str "abc")) ≠ pyStrip (pyStr (.str "abd")) ∧
    pyStrip (pyStr (.str "abc")) ≠ "" ∧
    pyStrip (pyStr (.str "abd")) ≠ "" ∧
    claimSimilarityRaw (.str "abc") (.str "abd") = 200/3 ∧
    calculateSimilarity (.str "abc") (.str "abd") = 667/10 ∧
    (667/10 : ℚ) ≠ 200/3 := by
  refine ⟨by decide, by decide, by decide, ?_, ?_, by norm_num⟩
  · unfold claimSimilarityRaw
    rw [show pyStrip (pyStr (.str "abc")) = "abc" from rfl,
        show pyStrip (pyStr (.str "abd")) = "abd" from rfl]
    norm_num [nearMissFloor, show parseFloat? "abc" = Option.none from rfl,
      show parseFloat? "abd" = Option.none from rfl,
      show levDistance "abc".data "abd".data = 1 from rfl,
      show String.length "abc" = 3 from rfl, show String.length "abd" = 3 from rfl]
  · unfold calculateSimilarity
    rw [show pyStrip (pyStr (.str "abc")) = "abc" from rfl,
        show pyStrip (pyStr (.str "abd")) = "abd" from rfl]
    simp only [show ("abc" == "abd") = false from rfl,
      show "abc".isEmpty = false from rfl, show "abd".isEmpty = false from rfl,
      Bool.false_eq_true, if_false, Bool.or_self]
    norm_num [nearMissFloor, show parseFloat? "abc" = Option.none from rfl,
      show parseFloat? "abd" = Option.none from rfl,
      show levDistance "abc".data "abd".data = 1 from rfl,
      show String.length "abc" = 3 from rfl, show String.length "abd" = 3 from rfl,
      pyRound, roundHalfEven, ratFloor]

/-- C5 (amended): for every pair of values whose trimmed string forms are
non-empty and unequal, the similarity score equals the normalized edit
distance raised to the applicable numeric near-miss floor, ROUNDED TO ONE
DECIMAL; in particular `"104"` vs `"100"` yields not passed,
similarity = 75 (hence ≥ 75), and a true partial-credit flag
(`not passed and similarity >= 50`, the expression from
`_run_single_test_python`). -/
theorem c5_similarity_formula :
    (∀ a e : PyVal,
      pyStrip (pyStr a) ≠ pyStrip (pyStr e) →
      pyStrip (pyStr a) ≠ "" →
      pyStrip (pyStr e) ≠ "" →
      calculateSimilarity a e = pyRound (claimSimilarityRaw a e) 1) ∧
    compareOutputs (.str "104") (.str "100") = false ∧
    calculateSimilarity (.str "104") (.str "100") = 75 ∧
    ((!compareOutputs (.str "104") (.str "100")
        && decide (calculateSimilarity (.str "104") (.str "100") ≥ 50)) = true) := by
  refine ⟨?_, compare_104_100, similarity_104_100, ?_⟩
  · intro a e hne ha he
    have h1 : (pyStrip (pyStr a) == pyStrip (pyStr e)) = false := beq_eq_false_iff_ne.mpr hne
    have h2 : (pyStrip (pyStr a)).isEmpty = false := by
      cases hh : (pyStrip (pyStr a)).isEmpty
      · rfl
      · exact absurd ((String.isEmpty_iff _).mp hh) ha
    have h3 : (pyStrip (pyStr e)).isEmpty = false := by
      cases hh : (pyStrip (pyStr e)).isEmpty
      · rfl
      · exact absurd ((String.isEmpty_iff _).mp hh) he
    unfold calculateSimilarity claimSimilarityRaw
    simp only [h1, h2, h3, Bool.or_self, Bool.false_eq_true, if_false]
  · rw [compare_104_100, similarity_104_100]
    norm_num

/-- C5 witness: the amended formula applied at `"104"` vs `"100"`. -/
theorem c5_similarity_formula_witness :
    pyStrip (pyStr (.str "104")) ≠ pyStrip (pyStr (.str "100")) ∧
    pyStrip (pyStr (.str "104")) ≠ "" ∧
    pyStrip (pyStr (.str "100")) ≠ "" ∧
    calculateSimilarity (.str "104") (.str "100")
      = pyRound (claimSimilarityRaw (.str "104") (.str "100")) 1 :=
  ⟨by decide, by decide, by decide,
   c5_similarity_formula.1 (.str "104") (.str "100") (by decide) (by decide) (by decide)⟩

/-- C6: for every pair of values that both coerce to (model) floats with
equal numeric value, the comparator reports the test as passed — the
float-coercion rule fires at the latest after the direct and
string-normalized rules. -/
theorem c6_numeric_coercion (a e : PyVal) (x y : ℚ)
    (hx : pyFloat? a = some x) (hy : pyFloat? e = some y) (hxy : x = y) :
    compareOutputs a e = true := by
  unfold compareOutputs
  cases h1 : pyEq a e
  · cases h2 : (pyStrip (pyStr a) == pyStrip (pyStr e))
    · simp only [hx, hy, Bool.false_eq_true, if_false]
      simp [hxy]
    · simp
  · simp

/-- C6 witness: the string `"55"` passes against the integer `55`. -/
theorem c6_numeric_coercion_witness :
    pyFloat? (.str "55") = some 55 ∧ pyFloat? (.int 55) = some 55 ∧
    compareOutputs (.str "55") (.int 55) = true := by
  have h1 : pyFloat? (.str "55") = some 55 := by
    rw [show pyFloat? (.str "55") = some ((1 : ℚ) * ((digitsVal ['5','5'] : ℚ)
      + (digitsVal ([] : List Char) : ℚ) / (10:ℚ) ^ (0 : Nat))) from rfl,
      show digitsVal ['5','5'] = 55 from rfl,
      show digitsVal ([] : List Char) = 0 from rfl]
    norm_num
  have h2 : pyFloat? (.int 55) = some 55 := by
    simp [pyFloat?]
  exact ⟨h1, h2, c6_numeric_coercion _ _ 55 55 h1 h2 rfl⟩

/-- C7: the claim asserts that against a boolean-typed expected value the
comparator passes IF AND ONLY IF the actual value is strictly equal to it,
no string-normalized or numeric rule applying. As stated this is false: the
earlier rules run first, so the STRING `"True"` passes against the boolean
`True` via trimmed-stringified equality even though the two values are not
equal (Python `"True" == True` is `False`). -/
theorem c7_counterexample :
    compareOutputs (.str "True") (.bool true) = true ∧
    pyEq (.str "True") (.bool true) = false :=
  ⟨rfl, rfl⟩

/-- C7 (amended): against a boolean-typed expected value the comparator
passes exactly when direct Python equality, trimmed-stringified equality, or
float-coercion equality succeeds; the dedicated boolean branch (`actual ==
expected`) is only a fallback that repeats direct equality and therefore
adds nothing. -/
theorem c7_bool_fallback (a : PyVal) (b : Bool) :
    compareOutputs a (.bool b) =
      (pyEq a (.bool b)
       || (pyStrip (pyStr a) == pyStrip (pyStr (.bool b)))
       || (match pyFloat? a with
           | some x => x == (if b then (1:ℚ) else 0)
           | Option.none => false)) := by
  unfold compareOutputs
  cases h1 : pyEq a (.bool b)
  · cases h2 : (pyStrip (pyStr a) == pyStrip (pyStr (.bool b)))
    · cases h3 : pyFloat? a
      · simp [pyFloat?, h1, h2, h3]
      · simp only [h1, h2, h3, show pyFloat? (.bool b) = some (if b then (1:ℚ) else 0) from rfl,
          Bool.false_eq_true, if_false, Bool.false_or]
        cases h4 : (_ == (if b then (1:ℚ) else 0))
        · simp [h1]
        · simp
    · simp [h2]
  · simp [h1]

/-- C7 witness: the amended characterization applied to the string `"1"`
against the boolean `True`. -/
theorem c7_bool_fallback_witness :
    compareOutputs (.str "1") (.bool true) =
      (pyEq (.str "1") (.bool true)
       || (pyStrip (pyStr (.str "1")) == pyStrip (pyStr (.bool true)))
       || (match pyFloat? (.str "1") with
           | some x => x == (if true then (1:ℚ) else 0)
           | Option.none => false)) :=
  c7_bool_fallback (.str "1") true

/-- C9: a test case whose process exceeds the timeout produces exactly the
record `TIMEOUT` / `passed = false` / `time_ms = TIMEOUT_SECONDS * 1000 =
10000`, and grading proceeds: every test case of the submission still yields
its own record, determined solely by its own test case and its own process
outcome (no retry, no corruption of siblings). -/
theorem c9_timeout_containment (tcs : List TCase) (oracle : Nat → ExecOutcome) (i : Nat)
    (hi : i < tcs.length) (ht : oracle i = .timeout) :
    (runTests tcs oracle).length = tcs.length ∧
    (runTests tcs oracle)[i]? = some
      ⟨pyStr (tcs.get ⟨i, hi⟩).input, pyStr (tcs.get ⟨i, hi⟩).expected, "TIMEOUT", false,
       (TIMEOUT_SECONDS : ℚ) * 1000, some "Execution exceeded 10s time limit"⟩ ∧
    (TIMEOUT_SECONDS : ℚ) * 1000 = 10000 ∧
    (∀ j, (runTests tcs oracle)[j]? =
      (tcs[j]?).map fun tc => mkTestCaseResult (runSingleTest tc (oracle j))) := by
  refine ⟨runTests_length tcs oracle, ?_, by norm_num [TIMEOUT_SECONDS], ?_⟩
  · have hg : tcs[i]? = some (tcs.get ⟨i, hi⟩) := List.getElem?_eq_getElem hi
    simp only [runTests_getElem?, hg, ht, Option.map_some']
    rfl
  · intro j
    exact runTests_getElem? tcs oracle j

/-- C9 witness: a single test case `5 → 5` whose process times out. -/
theorem c9_timeout_containment_witness :
    (runTests [⟨.int 5, .int 5⟩] (fun _ => .timeout)).length = 1 ∧
    (runTests [⟨.int 5, .int 5⟩] (fun _ => .timeout))[0]? = some
      ⟨"5", "5", "TIMEOUT", false, (TIMEOUT_SECONDS : ℚ) * 1000,
       some "Execution exceeded 10s time limit"⟩ ∧
    (TIMEOUT_SECONDS : ℚ) * 1000 = 10000 := by
  have h := c9_timeout_containment [⟨.int 5, .int 5⟩] (fun _ => .timeout) 0 (by decide) rfl
  exact ⟨h.1, h.2.1, h.2.2.1⟩

/-- C10: for every submission whose lower-cased language is not `python`,
the security screener is never consulted (the theorem holds for EVERY code
string, banned patterns included) and no process is spawned (the evidence is
independent of the process oracle): every test case resolves to `ENV_ERROR`
(java/cpp) or `UNSUPPORTED` (anything else) with `passed = false`,
`time_ms = 0`, never `BLOCKED`, and the evidence has `pass_rate = 0`. -/
theorem c10_non_python_dispatch (code language : String) (tcs : List TCase)
    (qid qtitle : String) (oracle : Nat → ExecOutcome)
    (h : strToLower language ≠ "python") :
    ∃ ev, execute code language tcs qid qtitle oracle = .ok ev ∧
      ev.pass_rate = 0 ∧ ev.avg_time_ms = 0 ∧
      ev.total_tests = tcs.length ∧ ev.test_cases.length = tcs.length ∧
      (∀ r ∈ ev.test_cases, r.passed = false ∧ r.time_ms = 0 ∧
        r.actual ≠ "BLOCKED" ∧
        r.actual = (if strToLower language = "java" ∨ strToLower language = "cpp"
                    then "ENV_ERROR" else "UNSUPPORTED")) ∧
      (∀ oracle2, execute code language tcs qid qtitle oracle2 = .ok ev) := by
  have e1 : (strToLower language == "python") = false := beq_eq_false_iff_ne.mpr h
  by_cases hj : strToLower language = "java"
  · have hexec : ∀ o : Nat → ExecOutcome, execute code language tcs qid qtitle o
        = .ok (createCompilerMissingFailure code "java" qid qtitle tcs "javac") := by
      intro o
      simp [execute, hj]
    refine ⟨_, hexec oracle, rfl, rfl, rfl, by simp [createCompilerMissingFailure], ?_, hexec⟩
    intro r hr
    simp only [createCompilerMissingFailure, List.mem_map] at hr
    obtain ⟨tc, _, rfl⟩ := hr
    simp [hj]
  · by_cases hc : strToLower language = "cpp"
    · have hexec : ∀ o : Nat → ExecOutcome, execute code language tcs qid qtitle o
          = .ok (createCompilerMissingFailure code "cpp" qid qtitle tcs "g++") := by
        intro o
        simp [execute, hc]
      refine ⟨_, hexec oracle, rfl, rfl, rfl, by simp [createCompilerMissingFailure], ?_, hexec⟩
      intro r hr
      simp only [createCompilerMissingFailure, List.mem_map] at hr
      obtain ⟨tc, _, rfl⟩ := hr
      simp [hc]
    · have e2 : (strToLower language == "java") = false := beq_eq_false_iff_ne.mpr hj
      have e3 : (strToLower language == "cpp") = false := beq_eq_false_iff_ne.mpr hc
      have hexec : ∀ o : Nat → ExecOutcome, execute code language tcs qid qtitle o
          = .ok (createUnsupportedFailure code (strToLower language) qid qtitle tcs) := by
        intro o
        simp [execute, e1, e2, e3]
      refine ⟨_, hexec oracle, rfl, rfl, rfl, by simp [createUnsupportedFailure], ?_, hexec⟩
      intro r hr
      simp only [createUnsupportedFailure, List.mem_map] at hr
      obtain ⟨tc, _, rfl⟩ := hr
      simp [hj, hc]

/-- C10 witness: a Java submission whose source even contains
`import subprocess` is still reported `ENV_ERROR`, never `BLOCKED`. -/
theorem c10_non_python_dispatch_witness :
    strToLower "java" ≠ "python" ∧
    ∃ ev, execute "import subprocess" "java" [⟨.int 1, .int 1⟩] "qx" "X"
        (fun _ => .timeout) = .ok ev ∧
      ev.pass_rate = 0 ∧ ev.avg_time_ms = 0 ∧
      ev.total_tests = [(⟨.int 1, .int 1⟩ : TCase)].length ∧
      ev.test_cases.length = [(⟨.int 1, .int 1⟩ : TCase)].length ∧
      (∀ r ∈ ev.test_cases, r.passed = false ∧ r.time_ms = 0 ∧
        r.actual ≠ "BLOCKED" ∧
        r.actual = (if strToLower "java" = "java" ∨ strToLower "java" = "cpp"
                    then "ENV_ERROR" else "UNSUPPORTED")) ∧
      (∀ oracle2, execute "import subprocess" "java" [⟨.int 1, .int 1⟩] "qx" "X" oracle2
        = .ok ev) :=
  ⟨by decide,
   c10_non_python_dispatch "import subprocess" "java" [⟨.int 1, .int 1⟩] "qx" "X"
     (fun _ => .timeout) (by decide)⟩
